import Mathlib

/-!
Verification of the I/O monitor engine in `src/utils/mce-io.c`.

The C module is reactor-driven and effectful; here every external effect is
made explicit:
* GLib channel operations (reads, seeks) are modelled on an explicit
  `IoChannel` state, or their outcomes are supplied as inputs
  (`ReadLineResult`, `ChunkRead`) where the code only inspects the result;
* `mce_log` calls are recorded in an output list of `LogMsg`;
* callback invocations (`iomon->callback`, `iomon->remdev_callback`) are
  recorded in output lists instead of being executed;
* `g_main_loop_quit` / `exit(EXIT_FAILURE)` are recorded as `FinalAction`s;
* the GSource return value of a watch callback (`TRUE` keeps the watch
  scheduled, `FALSE` removes it) is the `keep_source` field;
* the global `file_monitors` GSList is threaded as an explicit list.

Field and function names follow the C source.
-/

/-- Log levels of mce-log.h (`LL_*`). -/
inductive Loglevel
  | LL_NONE
  | LL_DEBUG
  | LL_INFO
  | LL_WARN
  | LL_ERR
  | LL_CRIT
deriving DecidableEq, Repr

/-- `error_policy_t` (`MCE_IO_ERROR_POLICY_*`). -/
inductive ErrorPolicy
  | EXIT
  | WARN
  | IGNORE
deriving DecidableEq, Repr

/-- `iomon_type`: IOMON_UNSET / IOMON_STRING / IOMON_CHUNK. -/
inductive IomonType
  | UNSET
  | STRING
  | CHUNK
deriving DecidableEq, Repr

/-- The GIOStatus values the module inspects. -/
inductive GIOStatus
  | NORMAL
  | EOF
  | AGAIN
  | ERROR
deriving DecidableEq, Repr

/-- GIOChannelError codes: the module only distinguishes
`G_IO_CHANNEL_ERROR_FAILED` from everything else. -/
inductive GIOChannelErrorCode
  | FAILED
  | OTHER
deriving DecidableEq, Repr

/-- A non-NULL `GError`: its `code` and `message`. -/
structure GErr where
  code : GIOChannelErrorCode
  message : String
deriving DecidableEq, Repr

/-- The `errno` value for a missing device, `ENODEV`. -/
def ENODEV : Nat := 19

/-- `iomon_struct`.  The `iochan` pointer, the two GSource ids and the two
callback function pointers are not data the pure model can hold: the channel
is threaded separately as `IoChannel`, watch bookkeeping is summarised by
`suspended`, and the callbacks are recorded as emitted calls carrying
`remdev_data` as the opaque context token. -/
structure IomonStruct where
  file : String
  remdev_data : Nat
  chunk_size : Nat
  fd : Int
  type : IomonType
  error_policy : ErrorPolicy
  latest_io_condition : Nat
  rewind : Bool
  suspended : Bool
deriving DecidableEq, Repr

/-- One `mce_log` call: severity and rendered message. -/
structure LogMsg where
  level : Loglevel
  msg : String
deriving DecidableEq, Repr

/-- Process-level effects a callback may perform at its end. -/
inductive FinalAction
  | main_loop_quit
  | exit_process (status : Nat)
deriving DecidableEq, Repr

/-- One invocation of `iomon->remdev_callback(remdev_data, file, iomon, error)`:
the argument order in the C call is (context, target, handle, error detail). -/
structure RemovalCall where
  context : Nat
  target : String
  handle : IomonStruct
  error_detail : GErr
deriving DecidableEq, Repr

/-- `io_mon_get_log_level` from mce-io.c. -/
def io_mon_get_log_level (iomon : IomonStruct) : Loglevel :=
  match iomon.error_policy with
  | ErrorPolicy.EXIT => Loglevel.LL_CRIT
  | ErrorPolicy.WARN => Loglevel.LL_WARN
  | ErrorPolicy.IGNORE => Loglevel.LL_NONE

/-- Result of `io_error_cb`: updated monitor, logs, process-level actions, and
the gboolean return value. -/
structure IoErrorCbResult where
  iomon : Option IomonStruct
  logs : List LogMsg
  final_actions : List FinalAction
  returned : Bool
deriving DecidableEq, Repr

/-- `io_error_cb` from mce-io.c.  `condition` is the GIOCondition bitmask.
The C function computes a log level from the error policy, suppresses the
diagnostic when the condition bits are already contained in
`latest_io_condition` and the policy is not fatal, otherwise ORs the bits in,
and on a fatal policy quits the main loop and exits with EXIT_FAILURE. -/
def io_error_cb (data : Option IomonStruct) (condition : Nat) : IoErrorCbResult :=
  match data with
  | none =>
    { iomon := none
      logs := [⟨Loglevel.LL_CRIT, "io_error_cb() called with iomon == NULL!"⟩]
      final_actions := []
      returned := true }
  | some iomon =>
    let loglevel0 := io_mon_get_log_level iomon
    let exit_on_error : Bool := decide (loglevel0 = Loglevel.LL_CRIT)
    let suppressed : Bool :=
      decide (exit_on_error = false ∧
        Nat.land iomon.latest_io_condition condition = condition)
    let loglevel := if suppressed then Loglevel.LL_NONE else loglevel0
    let latest :=
      if suppressed then iomon.latest_io_condition
      else Nat.lor iomon.latest_io_condition condition
    let logs :=
      if loglevel ≠ Loglevel.LL_NONE then
        [⟨loglevel,
          "Error accessing " ++ iomon.file ++ " (condition: " ++
            toString condition ++ "). " ++
            (if exit_on_error then "Exiting" else "Ignoring")⟩]
      else []
    let final_actions :=
      if exit_on_error then
        [FinalAction.main_loop_quit, FinalAction.exit_process 1]
      else []
    { iomon := some { iomon with latest_io_condition := latest }
      logs := logs
      final_actions := final_actions
      returned := true }

/-- The monitor state after an `io_error_cb` invocation on a non-NULL monitor. -/
def io_error_cb_mon (iomon : IomonStruct) (condition : Nat) : IomonStruct :=
  ((io_error_cb (some iomon) condition).iomon).getD iomon

/-- Number of diagnostics emitted by one `io_error_cb` invocation. -/
def io_error_cb_diag_count (iomon : IomonStruct) (condition : Nat) : Nat :=
  (io_error_cb (some iomon) condition).logs.length

/-- The `EXIT:` epilogue shared (textually) by `io_string_cb` and
`io_chunk_cb`:
`if ((status == FALSE) && (iomon != NULL) && (iomon->error_policy == MCE_IO_ERROR_POLICY_EXIT))`
then quit the main loop and exit with EXIT_FAILURE. -/
def io_cb_exit_actions (status : Bool) (data : Option IomonStruct) : List FinalAction :=
  match data with
  | none => []
  | some iomon =>
    if status = false ∧ iomon.error_policy = ErrorPolicy.EXIT then
      [FinalAction.main_loop_quit, FinalAction.exit_process 1]
    else []

/-- Outcome of `g_io_channel_read_line`: the returned string (NULL modelled as
`none`), the byte count, and the error out-parameter. -/
structure ReadLineResult where
  str : Option String
  bytes_read : Nat
  error : Option GErr
deriving DecidableEq, Repr

/-- Result of one `io_string_cb` invocation. -/
structure StringCbResult where
  iomon : Option IomonStruct
  logs : List LogMsg
  data_calls : List (String × Nat)
  removal_calls : List RemovalCall
  keep_source : Bool
  final_actions : List FinalAction
deriving DecidableEq, Repr

/-- `io_string_cb` from mce-io.c.  The rewind seek to offset 0 (best effort,
errors cleared and ignored) only moves the channel cursor and is not
observable in this per-invocation result; the read outcome is the input
`read`.  On a hard read error the C code invokes the removal callback and
returns FALSE directly, bypassing the `EXIT:` epilogue; on every other path
`status` is still TRUE (it is set to FALSE only in the NULL-monitor branch),
so the epilogue never quits or exits. -/
def io_string_cb (data : Option IomonStruct) (read : ReadLineResult) : StringCbResult :=
  match data with
  | none =>
    { iomon := none
      logs := [⟨Loglevel.LL_CRIT, "io_string_cb() called with iomon == NULL!"⟩]
      data_calls := []
      removal_calls := []
      keep_source := true
      final_actions := io_cb_exit_actions false none }
  | some iomon0 =>
    let iomon := { iomon0 with latest_io_condition := 0 }
    match read.error with
    | some e =>
      { iomon := some iomon
        logs := [⟨Loglevel.LL_ERR,
          "Error when reading from " ++ iomon.file ++ ": " ++ e.message⟩]
        data_calls := []
        removal_calls := [⟨iomon.remdev_data, iomon.file, iomon, e⟩]
        keep_source := false
        final_actions := [] }
    | none =>
      if read.bytes_read = 0 ∨ read.str = none ∨ (read.str.getD "").length = 0 then
        { iomon := some iomon
          logs := [⟨Loglevel.LL_ERR, "Empty read from " ++ iomon.file⟩]
          data_calls := []
          removal_calls := []
          keep_source := true
          final_actions := io_cb_exit_actions true (some iomon) }
      else
        { iomon := some iomon
          logs := []
          data_calls := [(read.str.getD "", read.bytes_read)]
          removal_calls := []
          keep_source := true
          final_actions := io_cb_exit_actions true (some iomon) }

/-- Outcome of one `g_io_channel_read_chars` call inside the chunk loop. -/
structure ChunkRead where
  io_status : GIOStatus
  bytes_read : Nat
  error : Option GErr
deriving DecidableEq, Repr

/-- The loop guard of the chunk read loop, exactly as written in the source:
`while ((io_status == G_IO_STATUS_AGAIN) && (error != NULL))`. -/
def chunk_loop_continue (r : ChunkRead) : Bool :=
  decide (r.io_status = GIOStatus.AGAIN ∧ r.error ≠ none)

/-- The do-while read loop of `io_chunk_cb`, driven by the finite schedule
`reads` of successive read outcomes: the loop performs the head read and
repeats while `chunk_loop_continue` holds.  `none` means the schedule was
exhausted while the guard still demanded another iteration. -/
def chunk_read_loop : List ChunkRead → Option ChunkRead
  | [] => none
  | r :: rs => if chunk_loop_continue r then chunk_read_loop rs else some r

/-- Result of one `io_chunk_cb` invocation.  `errno_out` is the value of
`errno` after the call (the input value, or 0 where the code resets it);
`seek_to_end_called` records the `mcs_io_monitor_seek_to_end` drain performed
before the removal callback in the device-absent branch. -/
structure ChunkCbResult where
  iomon : Option IomonStruct
  logs : List LogMsg
  data_calls : List Nat
  removal_calls : List RemovalCall
  seek_to_end_called : Bool
  keep_source : Bool
  errno_out : Nat
  final_actions : List FinalAction
  loop_exhausted : Bool
deriving DecidableEq, Repr

/-- `io_chunk_cb` from mce-io.c.  `errnoIn` is the value of `errno` when the
loop finishes; `reads` is the schedule of read outcomes consumed by the
do-while loop.  Only the byte count of a successful read is recorded in
`data_calls` (the chunk buffer contents play no role in the control flow of this module).  In the `G_IO_CHANNEL_ERROR_FAILED && errno == ENODEV` branch the code
drains to end-of-data, invokes the removal callback and returns FALSE
directly (skipping the `EXIT:` epilogue and leaving `errno` alone); any other
hard error only logs and resets `errno` to 0. -/
def io_chunk_cb (data : Option IomonStruct) (errnoIn : Nat) (reads : List ChunkRead) :
    ChunkCbResult :=
  match data with
  | none =>
    { iomon := none
      logs := [⟨Loglevel.LL_CRIT, "io_chunk_cb() called with iomon == NULL!"⟩]
      data_calls := []
      removal_calls := []
      seek_to_end_called := false
      keep_source := true
      errno_out := errnoIn
      final_actions := io_cb_exit_actions false none
      loop_exhausted := false }
  | some iomon0 =>
    let iomon := { iomon0 with latest_io_condition := 0 }
    match chunk_read_loop reads with
    | none =>
      { iomon := some iomon
        logs := []
        data_calls := []
        removal_calls := []
        seek_to_end_called := false
        keep_source := true
        errno_out := errnoIn
        final_actions := io_cb_exit_actions true (some iomon)
        loop_exhausted := true }
    | some r =>
      match r.error with
      | some e =>
        let logs := [⟨Loglevel.LL_ERR,
          "Error when reading from " ++ iomon.file ++ ": " ++ e.message⟩]
        if e.code = GIOChannelErrorCode.FAILED ∧ errnoIn = ENODEV then
          { iomon := some iomon
            logs := logs
            data_calls := []
            removal_calls := [⟨iomon.remdev_data, iomon.file, iomon, e⟩]
            seek_to_end_called := true
            keep_source := false
            errno_out := errnoIn
            final_actions := []
            loop_exhausted := false }
        else
          { iomon := some iomon
            logs := logs
            data_calls := []
            removal_calls := []
            seek_to_end_called := false
            keep_source := true
            errno_out := 0
            final_actions := io_cb_exit_actions true (some iomon)
            loop_exhausted := false }
      | none =>
        if r.bytes_read = 0 then
          { iomon := some iomon
            logs := [⟨Loglevel.LL_ERR, "Empty read from " ++ iomon.file⟩]
            data_calls := []
            removal_calls := []
            seek_to_end_called := false
            keep_source := true
            errno_out := errnoIn
            final_actions := io_cb_exit_actions true (some iomon)
            loop_exhausted := false }
        else
          { iomon := some iomon
            logs := []
            data_calls := [r.bytes_read]
            removal_calls := []
            seek_to_end_called := false
            keep_source := true
            errno_out := errnoIn
            final_actions := io_cb_exit_actions true (some iomon)
            loop_exhausted := false }

/-- Environment for `mce_register_io_monitor`: whether `g_slice_new`,
`g_io_channel_unix_new` and `g_io_channel_new_file` succeed. -/
structure OpenEnv where
  alloc_ok : Bool
  unix_new_ok : Bool
  new_file_ok : Bool
deriving DecidableEq, Repr

/-- Result of a registration call: the returned monitor (NULL on failure),
the updated global `file_monitors` list, and the logs. -/
structure RegisterResult where
  iomon : Option IomonStruct
  file_monitors : List IomonStruct
  logs : List LogMsg
deriving DecidableEq, Repr

/-- `mce_register_io_monitor` from mce-io.c (the private base constructor).
`callback_set` models `callback != NULL`.  On every failure path the C code
frees the partially allocated struct and leaves `file_monitors` untouched; on
the open-failure paths it logs only when the error policy is not IGNORE.  On
success it fills the fields (`rewind = FALSE`, `chunk_size = 0`), prepends
the monitor to `file_monitors` and marks it suspended.  `g_slice_new` leaves
`type`, `latest_io_condition` and the source ids uninitialised; they are
modelled as `UNSET` / 0 here (the outer constructors set `type` before it is
read). -/
def mce_register_io_monitor (env : OpenEnv) (file_monitors : List IomonStruct)
    (fd : Int) (file : Option String) (error_policy : ErrorPolicy)
    (callback_set : Bool) (remdev_data : Nat) : RegisterResult :=
  match file with
  | none =>
    { iomon := none
      file_monitors := file_monitors
      logs := [⟨Loglevel.LL_CRIT, "mce_register_io_monitor() called with file == NULL!"⟩] }
  | some f =>
    if callback_set = false then
      { iomon := none
        file_monitors := file_monitors
        logs := [⟨Loglevel.LL_CRIT,
          "mce_register_io_monitor() called with callback == NULL!"⟩] }
    else if env.alloc_ok = false then
      { iomon := none
        file_monitors := file_monitors
        logs := [⟨Loglevel.LL_CRIT, "Failed to allocate memory for iomon_struct"⟩] }
    else if fd ≠ -1 then
      if env.unix_new_ok = false then
        { iomon := none
          file_monitors := file_monitors
          logs := if error_policy ≠ ErrorPolicy.IGNORE then
              [⟨Loglevel.LL_ERR, "Failed to open " ++ f⟩]
            else [] }
      else
        let iomon : IomonStruct :=
          { file := f, remdev_data := remdev_data, chunk_size := 0, fd := fd
            type := IomonType.UNSET, error_policy := error_policy
            latest_io_condition := 0, rewind := false, suspended := true }
        { iomon := some iomon
          file_monitors := iomon :: file_monitors
          logs := [] }
    else
      if env.new_file_ok = false then
        { iomon := none
          file_monitors := file_monitors
          logs := if error_policy ≠ ErrorPolicy.IGNORE then
              [⟨Loglevel.LL_ERR, "Failed to open " ++ f⟩]
            else [] }
      else
        let iomon : IomonStruct :=
          { file := f, remdev_data := remdev_data, chunk_size := 0, fd := fd
            type := IomonType.UNSET, error_policy := error_policy
            latest_io_condition := 0, rewind := false, suspended := true }
        { iomon := some iomon
          file_monitors := iomon :: file_monitors
          logs := [] }

/-- A GIOChannel state: the bytes ever written to the underlying target, the
read cursor, whether `G_IO_FLAG_IS_SEEKABLE` is set, whether a seek on it
reports an error, and the `set_encoding(NULL)` / `G_IO_FLAG_NONBLOCK` mode
bits the chunk constructor flips. -/
structure IoChannel where
  contents : List Nat
  pos : Nat
  seekable : Bool
  seek_fails : Bool
  binary_encoding : Bool
  nonblocking : Bool
deriving DecidableEq, Repr

/-- `g_io_channel_read_chars ch buf count`: returns up to `count` of the
bytes available past the cursor and advances the cursor past them. -/
def g_io_channel_read_chars (ch : IoChannel) (count : Nat) : IoChannel × List Nat :=
  let data := (ch.contents.drop ch.pos).take count
  ({ ch with pos := ch.pos + data.length }, data)

/-- The drain loop of `mcs_io_monitor_seek_to_end`:
`do { g_io_channel_read_chars(iochan, buffer, 1024, ...) } while (bytes_read > 0 && error == NULL)`.
In this channel model reads do not fail, so the loop stops at the first read
that yields zero bytes.  The fuel argument is a proven upper bound on the
number of non-empty reads (each consumes at least one byte), making the
definition structurally recursive and executable; `drain_to_end` supplies
enough fuel to reach the zero-byte read. -/
def drain_loop (fuel : Nat) (ch : IoChannel) : IoChannel :=
  match fuel with
  | 0 => ch
  | fuel + 1 =>
    let step := g_io_channel_read_chars ch 1024
    if step.2.length = 0 then ch
    else drain_loop fuel step.1

/-- The drain loop with sufficient fuel to hit a zero-byte read. -/
def drain_to_end (ch : IoChannel) : IoChannel :=
  drain_loop (ch.contents.length - ch.pos + 1) ch

/-- Result of `mcs_io_monitor_seek_to_end`: the channel afterwards, and
whether the 1024-byte drain loop (rather than the direct seek) was used. -/
structure SeekToEndResult where
  channel : IoChannel
  used_drain : Bool
deriving DecidableEq, Repr

/-- `mcs_io_monitor_seek_to_end` from mce-io.c: if the channel flags contain
`G_IO_FLAG_IS_SEEKABLE`, seek to `G_SEEK_END`; `seek_success` is true only if
that seek raised no error.  If there was no successful seek (non-seekable
channel, or the seek failed), drain synchronously with 1024-byte reads until
a read yields zero bytes or an error.  The C function always returns TRUE. -/
def mcs_io_monitor_seek_to_end (ch : IoChannel) : SeekToEndResult :=
  let seeked :=
    if ch.seekable then
      if ch.seek_fails then (ch, false)
      else ({ ch with pos := ch.contents.length }, true)
    else (ch, false)
  if seeked.2 then { channel := seeked.1, used_drain := false }
  else { channel := drain_to_end seeked.1, used_drain := true }

/-- `mce_resume_io_monitor` from mce-io.c, for a non-NULL monitor: no-op if
not suspended; with a valid type (STRING or CHUNK picks the callback), first
advance to end-of-data when the rewind policy is disabled, then arm the error
and data watches (summarised by clearing `suspended`).  With type UNSET the
callback is NULL and the function only logs. -/
def mce_resume_io_monitor (iomon : IomonStruct) (ch : IoChannel) :
    IomonStruct × IoChannel :=
  if iomon.suspended = false then (iomon, ch)
  else
    match iomon.type with
    | IomonType.UNSET => (iomon, ch)
    | _ =>
      let ch2 := if iomon.rewind = false then (mcs_io_monitor_seek_to_end ch).channel
        else ch
      ({ iomon with suspended := false }, ch2)

/-- The shared rewind-policy check of the two public constructors: on a
seekable channel the policy requested by the caller is taken as-is; on a non-seekable
channel a requested rewind is refused with one LL_ERR diagnostic and the
effective flag stays FALSE. -/
def iomon_rewind_setup (seekable : Bool) (rewind_policy : Bool) (file : String) :
    Bool × List LogMsg :=
  if seekable then (rewind_policy, [])
  else if rewind_policy then
    (false, [⟨Loglevel.LL_ERR,
      "Attempting to set rewind policy to TRUE on non-seekable I/O channel " ++ file⟩])
  else (false, [])

/-- `mce_register_io_monitor_string` from mce-io.c: base registration, rewind
sanity check, type `IOMON_STRING`, then resume.  The list in the returned
`RegisterResult` reflects that the registry holds the same (mutated in place
in C) monitor that was prepended by the base constructor. -/
def mce_register_io_monitor_string (env : OpenEnv) (ch : IoChannel)
    (file_monitors : List IomonStruct) (fd : Int) (file : Option String)
    (error_policy : ErrorPolicy) (rewind_policy : Bool) (callback_set : Bool)
    (remdev_data : Nat) : RegisterResult × IoChannel :=
  let base := mce_register_io_monitor env file_monitors fd file error_policy
    callback_set remdev_data
  match base.iomon with
  | none => (base, ch)
  | some iomon0 =>
    let rw := iomon_rewind_setup ch.seekable rewind_policy iomon0.file
    let iomon1 := { iomon0 with rewind := rw.1, type := IomonType.STRING }
    let resumed := mce_resume_io_monitor iomon1 ch
    ({ iomon := some resumed.1
       file_monitors := resumed.1 :: file_monitors
       logs := base.logs ++ rw.2 }, resumed.2)

/-- `mce_register_io_monitor_chunk` from mce-io.c: base registration, chunk
size, rewind sanity check, binary encoding, non-blocking mode, type
`IOMON_CHUNK`, then resume. -/
def mce_register_io_monitor_chunk (env : OpenEnv) (ch : IoChannel)
    (file_monitors : List IomonStruct) (fd : Int) (file : Option String)
    (error_policy : ErrorPolicy) (rewind_policy : Bool) (callback_set : Bool)
    (chunk_size : Nat) (remdev_data : Nat) : RegisterResult × IoChannel :=
  let base := mce_register_io_monitor env file_monitors fd file error_policy
    callback_set remdev_data
  match base.iomon with
  | none => (base, ch)
  | some iomon0 =>
    let iomon01 := { iomon0 with chunk_size := chunk_size }
    let rw := iomon_rewind_setup ch.seekable rewind_policy iomon01.file
    let ch1 := { ch with binary_encoding := true, nonblocking := true }
    let iomon1 := { iomon01 with rewind := rw.1, type := IomonType.CHUNK }
    let resumed := mce_resume_io_monitor iomon1 ch1
    ({ iomon := some resumed.1
       file_monitors := resumed.1 :: file_monitors
       logs := base.logs ++ rw.2 }, resumed.2)

/-- Result of `mce_unregister_io_monitor`: the updated registry, logs,
whether `g_io_channel_shutdown` was called on the channel, the descriptor
passed to `close()` (if any), and whether the struct was freed. -/
structure UnregisterResult where
  file_monitors : List IomonStruct
  logs : List LogMsg
  channel_shutdown : Bool
  closed_fd : Option Int
  freed : Bool
deriving DecidableEq, Repr

/-- `mce_unregister_io_monitor` from mce-io.c: NULL tolerated with a debug
log; otherwise the registry entry is removed (warning if it was not there),
the watches are removed via suspend, the channel is shutdown only when the
monitor owns it (`fd == -1`, path-opened), the channel is unreffed, and for a
caller-supplied descriptor (`fd != -1`) the code then calls `close(fd)`
(logging on failure, a sub-branch elided here along with the shutdown-failure
log).  Finally the file string and the struct are freed. -/
def mce_unregister_io_monitor (file_monitors : List IomonStruct)
    (io_monitor : Option IomonStruct) : UnregisterResult :=
  match io_monitor with
  | none =>
    { file_monitors := file_monitors
      logs := [⟨Loglevel.LL_DEBUG, "mce_unregister_io_monitor called with NULL argument"⟩]
      channel_shutdown := false
      closed_fd := none
      freed := false }
  | some iomon =>
    let oldlen := file_monitors.length
    let monitors1 := if file_monitors ≠ [] then file_monitors.erase iomon
      else file_monitors
    let warn_logs : List LogMsg :=
      if oldlen = monitors1.length then
        [⟨Loglevel.LL_WARN, "Trying to unregister non-existing file monitor"⟩]
      else []
    { file_monitors := monitors1
      logs := warn_logs
      channel_shutdown := decide (iomon.fd = -1)
      closed_fd := if iomon.fd ≠ -1 then some iomon.fd else none
      freed := true }

/-- `mce_get_io_monitor_name` from mce-io.c. -/
def mce_get_io_monitor_name (iomon : IomonStruct) : String :=
  iomon.file

/-- `mce_get_io_monitor_fd` from mce-io.c. -/
def mce_get_io_monitor_fd (iomon : IomonStruct) : Int :=
  iomon.fd

/-- A monitor with the EXIT error policy, used to instantiate theorems. -/
def demoMonExit : IomonStruct :=
  { file := "/dev/demo0", remdev_data := 7, chunk_size := 0, fd := -1
    type := IomonType.STRING, error_policy := ErrorPolicy.EXIT
    latest_io_condition := 0, rewind := false, suspended := false }

/-- A monitor with the WARN error policy, used to instantiate theorems. -/
def demoMonWarn : IomonStruct :=
  { file := "/dev/demo1", remdev_data := 3, chunk_size := 0, fd := -1
    type := IomonType.STRING, error_policy := ErrorPolicy.WARN
    latest_io_condition := 0, rewind := false, suspended := false }

/-- A chunk monitor with the IGNORE error policy, used to instantiate theorems. -/
def demoMonIgnore : IomonStruct :=
  { file := "/dev/input/demo2", remdev_data := 11, chunk_size := 32, fd := -1
    type := IomonType.CHUNK, error_policy := ErrorPolicy.IGNORE
    latest_io_condition := 0, rewind := false, suspended := false }

/-- A chunk monitor built around a caller-supplied descriptor (fd 5). -/
def demoFdMon : IomonStruct :=
  { file := "/dev/input/event0", remdev_data := 0, chunk_size := 32, fd := 5
    type := IomonType.CHUNK, error_policy := ErrorPolicy.WARN
    latest_io_condition := 0, rewind := false, suspended := false }

/-- A hard read error of the device-absent class. -/
def demoErrNodev : GErr :=
  { code := GIOChannelErrorCode.FAILED, message := "No such device" }

/-- A hard read error that is not of the device-absent class. -/
def demoErrOther : GErr :=
  { code := GIOChannelErrorCode.OTHER, message := "Input-output error" }

/-- A non-seekable channel (a FIFO-like target). -/
def demoPipeChan : IoChannel :=
  { contents := [], pos := 0, seekable := false, seek_fails := false
    binary_encoding := false, nonblocking := false }

/-- A seekable channel holding three stale bytes, cursor at the start. -/
def demoFileChan : IoChannel :=
  { contents := [10, 20, 30], pos := 0, seekable := true, seek_fails := false
    binary_encoding := false, nonblocking := false }

/-- An environment in which every allocation and open succeeds. -/
def demoEnvOk : OpenEnv :=
  { alloc_ok := true, unix_new_ok := true, new_file_ok := true }

/-- An environment in which both channel constructors fail. -/
def demoEnvOpenFail : OpenEnv :=
  { alloc_ok := true, unix_new_ok := false, new_file_ok := false }

/-- The monitor produced by registering a string monitor on `demoPipeChan`
with rewind requested: the effective rewind flag ended up false. -/
def demoPipeStrMon : IomonStruct :=
  { file := "/dev/pipe0", remdev_data := 3, chunk_size := 0, fd := -1
    type := IomonType.STRING, error_policy := ErrorPolicy.WARN
    latest_io_condition := 0, rewind := false, suspended := false }

/-- A suspended chunk monitor with rewind disabled, ready to be resumed. -/
def demoMonSusp : IomonStruct :=
  { file := "/dev/demo3", remdev_data := 5, chunk_size := 32, fd := -1
    type := IomonType.CHUNK, error_policy := ErrorPolicy.WARN
    latest_io_condition := 0, rewind := false, suspended := true }

theorem drain_loop_spec (fuel : Nat) :
    ∀ ch : IoChannel, ch.pos ≤ ch.contents.length →
      ch.contents.length - ch.pos < fuel →
      drain_loop fuel ch = { ch with pos := ch.contents.length } := by
  induction fuel with
  | zero =>
    intro ch _ h2
    exact absurd h2 (Nat.not_lt_zero _)
  | succ k ih =>
    intro ch h1 h2
    have hlen : ((ch.contents.drop ch.pos).take 1024).length
        = min 1024 (ch.contents.length - ch.pos) := by
      simp [List.length_take, List.length_drop]
    unfold drain_loop
    by_cases hz : ((g_io_channel_read_chars ch 1024).2).length = 0
    · have hp : ch.contents.length = ch.pos := by
        simp only [g_io_channel_read_chars] at hz
        omega
      rw [hp]
      simp [hz]
    · simp only [hz, if_neg hz]
      have hlen2 : ((g_io_channel_read_chars ch 1024).2).length
          = min 1024 (ch.contents.length - ch.pos) := by
        simp [g_io_channel_read_chars]
      have hstep : (g_io_channel_read_chars ch 1024).1
          = { ch with pos := ch.pos + ((g_io_channel_read_chars ch 1024).2).length } := by
        simp [g_io_channel_read_chars]
      rw [hstep, ih]
      · simp
      · simp
        omega
      · simp
        omega

theorem drain_to_end_spec (ch : IoChannel) (h : ch.pos ≤ ch.contents.length) :
    drain_to_end ch = { ch with pos := ch.contents.length } := by
  unfold drain_to_end
  exact drain_loop_spec _ ch h (by omega)

theorem mcs_seek_to_end_channel (ch : IoChannel) (h : ch.pos ≤ ch.contents.length) :
    (mcs_io_monitor_seek_to_end ch).channel = { ch with pos := ch.contents.length } := by
  unfold mcs_io_monitor_seek_to_end
  by_cases hs : ch.seekable
  · by_cases hf : ch.seek_fails
    · simp [hs, hf, drain_to_end_spec ch h]
    · simp [hs, hf]
  · simp [hs, drain_to_end_spec ch h]

theorem register_base_some_logs
    (env : OpenEnv) (ms : List IomonStruct) (fd : Int) (file : Option String)
    (policy : ErrorPolicy) (cb : Bool) (d : Nat) (m : IomonStruct)
    (h : (mce_register_io_monitor env ms fd file policy cb d).iomon = some m) :
    (mce_register_io_monitor env ms fd file policy cb d).logs = [] := by
  cases file with
  | none => simp [mce_register_io_monitor] at h
  | some f =>
    unfold mce_register_io_monitor at h ⊢
    split_ifs at h ⊢ <;> simp_all

theorem resume_preserves_rewind (iomon : IomonStruct) (ch : IoChannel) :
    (mce_resume_io_monitor iomon ch).1.rewind = iomon.rewind := by
  unfold mce_resume_io_monitor
  by_cases hs : iomon.suspended = false
  · simp [hs]
  · cases ht : iomon.type <;> simp [hs, ht]

/-- C1 counterexample: unregistering the monitor built around the
caller-supplied descriptor 5 makes the engine call close(5) (mce-io.c line
853: `if(iomon->fd != -1 && close(iomon->fd) < 0)`), so the claim that after
`mce_unregister_io_monitor` returns the caller-owned descriptor has not been
closed by the engine is false at this input. -/
theorem unregister_closes_caller_descriptor_cex :
    demoFdMon.fd ≠ -1 ∧
    (mce_unregister_io_monitor [demoFdMon] (some demoFdMon)).closed_fd = some 5 := by
  constructor
  · decide
  · rfl

/-- C1 amended: for a monitor registered with a caller-supplied descriptor
(fd different from -1), unregister removes the registry entry and does not
shutdown the GIOChannel (that happens only for path-opened monitors), but it
does call close() on the caller-supplied descriptor, so after it returns the
underlying descriptor has been closed by the engine. -/
theorem unregister_external_fd_teardown :
    ∀ (monitors : List IomonStruct) (iomon : IomonStruct),
      iomon.fd ≠ -1 →
      (mce_unregister_io_monitor monitors (some iomon)).channel_shutdown = false ∧
      (mce_unregister_io_monitor monitors (some iomon)).closed_fd = some iomon.fd ∧
      (mce_unregister_io_monitor monitors (some iomon)).file_monitors
        = monitors.erase iomon := by
  intro monitors iomon h
  refine ⟨?_, ?_, ?_⟩
  · simp [mce_unregister_io_monitor, h]
  · simp [mce_unregister_io_monitor, h]
  · by_cases hm : monitors = [] <;> simp [mce_unregister_io_monitor, hm]

theorem unregister_external_fd_teardown_witness :
    (mce_unregister_io_monitor [demoFdMon] (some demoFdMon)).channel_shutdown = false ∧
    (mce_unregister_io_monitor [demoFdMon] (some demoFdMon)).closed_fd = some demoFdMon.fd ∧
    (mce_unregister_io_monitor [demoFdMon] (some demoFdMon)).file_monitors
      = [demoFdMon].erase demoFdMon :=
  unregister_external_fd_teardown [demoFdMon] demoFdMon (by decide)

/-- C2: the chunk read loop guard in the source is
`(io_status == G_IO_STATUS_AGAIN) && (error != NULL)`, the opposite of the
specified retry-while-would-block-with-no-error condition.  At the outcome
GLib actually produces for a would-block non-blocking read
(G_IO_STATUS_AGAIN with the error out-parameter left NULL) the guard is
false, so the do-while loop stops immediately instead of retrying: with a
successful read next in the schedule, the loop returns the would-block
outcome and never reaches the successful one. -/
theorem chunk_loop_stops_on_would_block :
    chunk_loop_continue ⟨GIOStatus.AGAIN, 0, none⟩ = false ∧
    chunk_read_loop
        [⟨GIOStatus.AGAIN, 0, none⟩, ⟨GIOStatus.NORMAL, 5, none⟩]
      = some ⟨GIOStatus.AGAIN, 0, none⟩ := by
  constructor
  · rfl
  · rfl

/-- C3: when the chunk read loop finishes with a hard error, the handler
splits on the classification.  Device absent (code G_IO_CHANNEL_ERROR_FAILED
with errno ENODEV): drain to end-of-data, then invoke the removal callback
once with (context, target, handle, error detail), and return FALSE so the
data watch is not rescheduled; the branch never consults the error policy,
so this holds for IGNORE as well.  Any other hard error: absorbed, errno is
reset to 0, no removal or data callback, and the watch stays scheduled. -/
theorem chunk_hard_error_classification :
    ∀ (iomon : IomonStruct) (errnoIn : Nat) (reads : List ChunkRead)
      (r0 : ChunkRead) (e : GErr),
      chunk_read_loop reads = some r0 →
      r0.error = some e →
      ((e.code = GIOChannelErrorCode.FAILED ∧ errnoIn = ENODEV) →
        (io_chunk_cb (some iomon) errnoIn reads).seek_to_end_called = true ∧
        (io_chunk_cb (some iomon) errnoIn reads).removal_calls
          = [⟨iomon.remdev_data, iomon.file,
              { iomon with latest_io_condition := 0 }, e⟩] ∧
        (io_chunk_cb (some iomon) errnoIn reads).keep_source = false ∧
        (io_chunk_cb (some iomon) errnoIn reads).data_calls = []) ∧
      (¬(e.code = GIOChannelErrorCode.FAILED ∧ errnoIn = ENODEV) →
        (io_chunk_cb (some iomon) errnoIn reads).removal_calls = [] ∧
        (io_chunk_cb (some iomon) errnoIn reads).data_calls = [] ∧
        (io_chunk_cb (some iomon) errnoIn reads).errno_out = 0 ∧
        (io_chunk_cb (some iomon) errnoIn reads).keep_source = true ∧
        (io_chunk_cb (some iomon) errnoIn reads).seek_to_end_called = false) := by
  intro iomon errnoIn reads r0 e hloop herr
  refine ⟨fun hc => ?_, fun hc => ?_⟩
  · simp [io_chunk_cb, hloop, herr, hc]
  · simp only [io_chunk_cb, hloop, herr]
    simp [hc]

theorem chunk_hard_error_classification_witness :
    (io_chunk_cb (some demoMonIgnore) 19
        [⟨GIOStatus.ERROR, 0, some demoErrNodev⟩]).removal_calls
      = [⟨demoMonIgnore.remdev_data, demoMonIgnore.file,
          { demoMonIgnore with latest_io_condition := 0 }, demoErrNodev⟩] ∧
    (io_chunk_cb (some demoMonIgnore) 19
        [⟨GIOStatus.ERROR, 0, some demoErrNodev⟩]).keep_source = false := by
  have h := chunk_hard_error_classification demoMonIgnore 19
    [⟨GIOStatus.ERROR, 0, some demoErrNodev⟩]
    ⟨GIOStatus.ERROR, 0, some demoErrNodev⟩ demoErrNodev rfl rfl
  exact ⟨(h.1 (by decide)).2.1, (h.1 (by decide)).2.2.1⟩

/-- C4: duplicate-diagnostic suppression in the condition dispatcher.
(1) A non-fatal notification whose condition bits are already fully
contained in the outstanding mask emits no diagnostic and leaves the monitor
unchanged.  (2) Otherwise (new bits, or a fatal policy) the bits are ORed
into the mask and exactly one diagnostic is emitted iff the mapped severity
is non-silent (policy not IGNORE).  (3)(4) Both read handlers reset the mask
to 0 at the start of every read attempt.  (5) Hence, starting from a freshly
reset mask under the WARN policy, two consecutive identical notifications
produce exactly one diagnostic in total, and a following notification
carrying a new distinct condition bit produces a second one. -/
theorem io_error_cb_dedup :
    (∀ (iomon : IomonStruct) (condition : Nat),
       iomon.error_policy ≠ ErrorPolicy.EXIT →
       Nat.land iomon.latest_io_condition condition = condition →
       (io_error_cb (some iomon) condition).logs = [] ∧
       io_error_cb_mon iomon condition = iomon) ∧
    (∀ (iomon : IomonStruct) (condition : Nat),
       ¬(iomon.error_policy ≠ ErrorPolicy.EXIT ∧
          Nat.land iomon.latest_io_condition condition = condition) →
       (io_error_cb_mon iomon condition).latest_io_condition
         = Nat.lor iomon.latest_io_condition condition ∧
       (io_error_cb (some iomon) condition).logs.length
         = (if iomon.error_policy ≠ ErrorPolicy.IGNORE then 1 else 0)) ∧
    (∀ (iomon : IomonStruct) (read : ReadLineResult),
       Option.map IomonStruct.latest_io_condition
         ((io_string_cb (some iomon) read).iomon) = some 0) ∧
    (∀ (iomon : IomonStruct) (errnoIn : Nat) (reads : List ChunkRead),
       Option.map IomonStruct.latest_io_condition
         ((io_chunk_cb (some iomon) errnoIn reads).iomon) = some 0) ∧
    (∀ (iomon : IomonStruct) (c c2 : Nat),
       iomon.error_policy = ErrorPolicy.WARN →
       iomon.latest_io_condition = 0 →
       c ≠ 0 →
       Nat.land (Nat.lor 0 c) c2 ≠ c2 →
       io_error_cb_diag_count iomon c = 1 ∧
       io_error_cb_diag_count (io_error_cb_mon iomon c) c = 0 ∧
       io_error_cb_diag_count (io_error_cb_mon iomon c) c2 = 1) := by
  refine ⟨?_, ?_, ?_, ?_, ?_⟩
  · intro iomon condition hpol hcont
    have hlvl : io_mon_get_log_level iomon ≠ Loglevel.LL_CRIT := by
      cases hp : iomon.error_policy <;> simp_all [io_mon_get_log_level]
    constructor
    · simp [io_error_cb, hlvl, hcont]
    · simp [io_error_cb_mon, io_error_cb, hlvl, hcont]
  · intro iomon condition hnot
    cases hp : iomon.error_policy <;>
      simp_all [io_error_cb, io_error_cb_mon, io_mon_get_log_level]
  · intro iomon read
    cases herr : read.error with
    | some e => simp [io_string_cb, herr]
    | none =>
      by_cases hb : (read.bytes_read = 0 ∨ read.str = none ∨
          (read.str.getD "").length = 0)
      · simp [io_string_cb, herr, hb]
      · simp [io_string_cb, herr, hb]
  · intro iomon errnoIn reads
    cases hloop : chunk_read_loop reads with
    | none => simp [io_chunk_cb, hloop]
    | some r =>
      cases herr : r.error with
      | some e =>
        by_cases hc : (e.code = GIOChannelErrorCode.FAILED ∧ errnoIn = ENODEV)
        · simp [io_chunk_cb, hloop, herr, hc]
        · simp only [io_chunk_cb, hloop, herr]
          simp [hc]
      | none =>
        by_cases hb : r.bytes_read = 0
        · simp [io_chunk_cb, hloop, herr, hb]
        · simp [io_chunk_cb, hloop, herr, hb]
  · intro iomon c c2 hp h0 hc hnew
    have hz : Nat.land 0 c = 0 := Nat.zero_and c
    have hland : Nat.land 0 c ≠ c := by
      rw [hz]
      exact fun h => hc h.symm
    have hmon : io_error_cb_mon iomon c
        = { iomon with latest_io_condition := Nat.lor 0 c } := by
      simp [io_error_cb_mon, io_error_cb, io_mon_get_log_level, hp, h0, hland]
    refine ⟨?_, ?_, ?_⟩
    · simp [io_error_cb_diag_count, io_error_cb, io_mon_get_log_level, hp, h0, hland]
    · rw [hmon]
      have hor : Nat.lor 0 c = c := Nat.zero_or c
      have hself : Nat.land c c = c := Nat.and_self c
      have hfull : Nat.land (Nat.lor 0 c) c = c := by
        rw [hor, hself]
      simp [io_error_cb_diag_count, io_error_cb, io_mon_get_log_level, hp, hfull]
    · rw [hmon]
      simp [io_error_cb_diag_count, io_error_cb, io_mon_get_log_level, hp, hnew]

theorem io_error_cb_dedup_witness :
    ((io_error_cb (some demoMonWarn) 1).logs.length = 1) ∧
    io_error_cb_diag_count (io_error_cb_mon demoMonWarn 1) 1 = 0 ∧
    io_error_cb_diag_count (io_error_cb_mon demoMonWarn 1) 2 = 1 := by
  have h := io_error_cb_dedup.2.2.2.2 demoMonWarn 1 2 rfl rfl
    (by decide) (by decide)
  exact ⟨h.1, h.2.1, h.2.2⟩

/-- C5: the condition dispatcher maps the error policy to severity as
EXIT→LL_CRIT (fatal), WARN→LL_WARN (warning), IGNORE→LL_NONE (silent); and
with the fatal policy it performs exactly the action sequence
[main_loop_quit, exit_process 1]: a stop request to the main loop followed
by process termination with the non-zero status EXIT_FAILURE, and nothing
else (in particular no teardown of other monitors first).  With a non-fatal
policy it performs no process-level action. -/
theorem io_error_policy_severity_and_fatal :
    (∀ iomon : IomonStruct,
       (iomon.error_policy = ErrorPolicy.EXIT ↔
          io_mon_get_log_level iomon = Loglevel.LL_CRIT) ∧
       (iomon.error_policy = ErrorPolicy.WARN ↔
          io_mon_get_log_level iomon = Loglevel.LL_WARN) ∧
       (iomon.error_policy = ErrorPolicy.IGNORE ↔
          io_mon_get_log_level iomon = Loglevel.LL_NONE)) ∧
    (∀ (iomon : IomonStruct) (condition : Nat),
       iomon.error_policy = ErrorPolicy.EXIT →
       (io_error_cb (some iomon) condition).final_actions
         = [FinalAction.main_loop_quit, FinalAction.exit_process 1]) ∧
    (∀ (iomon : IomonStruct) (condition : Nat),
       iomon.error_policy ≠ ErrorPolicy.EXIT →
       (io_error_cb (some iomon) condition).final_actions = []) := by
  refine ⟨?_, ?_, ?_⟩
  · intro iomon
    cases hp : iomon.error_policy <;> simp [io_mon_get_log_level, hp]
  · intro iomon condition hp
    simp [io_error_cb, io_mon_get_log_level, hp]
  · intro iomon condition hp
    cases hpc : iomon.error_policy <;>
      simp_all [io_error_cb, io_mon_get_log_level]

theorem io_error_policy_severity_and_fatal_witness :
    io_mon_get_log_level demoMonExit = Loglevel.LL_CRIT ∧
    (io_error_cb (some demoMonExit) 9).final_actions
      = [FinalAction.main_loop_quit, FinalAction.exit_process 1] ∧
    (io_error_cb (some demoMonWarn) 9).final_actions = [] :=
  ⟨(io_error_policy_severity_and_fatal.1 demoMonExit).1.mp rfl,
   io_error_policy_severity_and_fatal.2.1 demoMonExit 9 rfl,
   io_error_policy_severity_and_fatal.2.2 demoMonWarn 9 (by decide)⟩

/-- C6: the end-of-data advance.  (1) For any channel whose cursor is within
the content, `mcs_io_monitor_seek_to_end` places the cursor at the end
offset while leaving the content untouched; a seekable channel whose seek
succeeds is advanced by the direct seek, a non-seekable channel by the
synchronous 1024-byte drain loop (which stops at the first read that yields
zero bytes).  (2) Consequently, resuming a suspended chunk monitor with
rewind disabled and then appending fresh bytes to the target makes the next
read return only (a prefix of) the fresh bytes: the stale bytes that were
present at resume time are never replayed. -/
theorem seek_to_end_no_stale_replay :
    (∀ ch : IoChannel, ch.pos ≤ ch.contents.length →
       (mcs_io_monitor_seek_to_end ch).channel.pos = ch.contents.length ∧
       (mcs_io_monitor_seek_to_end ch).channel.contents = ch.contents ∧
       (ch.seekable = true → ch.seek_fails = false →
          (mcs_io_monitor_seek_to_end ch).used_drain = false) ∧
       (ch.seekable = false → (mcs_io_monitor_seek_to_end ch).used_drain = true)) ∧
    (∀ (iomon : IomonStruct) (ch : IoChannel) (fresh : List Nat) (count : Nat),
       iomon.suspended = true → iomon.rewind = false →
       iomon.type = IomonType.CHUNK →
       ch.pos ≤ ch.contents.length →
       (g_io_channel_read_chars
          { (mce_resume_io_monitor iomon ch).2 with
              contents := (mce_resume_io_monitor iomon ch).2.contents ++ fresh }
          count).2
         = fresh.take count) := by
  constructor
  · intro ch h
    have hch := mcs_seek_to_end_channel ch h
    refine ⟨by rw [hch], by rw [hch], ?_, ?_⟩
    · intro hs hf
      simp [mcs_io_monitor_seek_to_end, hs, hf]
    · intro hs
      simp [mcs_io_monitor_seek_to_end, hs]
  · intro iomon ch fresh count hsusp hrw htype h
    have hres : (mce_resume_io_monitor iomon ch).2
        = (mcs_io_monitor_seek_to_end ch).channel := by
      simp [mce_resume_io_monitor, hsusp, hrw, htype]
    rw [hres, mcs_seek_to_end_channel ch h]
    simp [g_io_channel_read_chars, List.drop_left]

theorem seek_to_end_no_stale_replay_witness :
    demoFileChan.pos ≤ demoFileChan.contents.length ∧
    (mcs_io_monitor_seek_to_end demoFileChan).channel.pos
      = demoFileChan.contents.length ∧
    (g_io_channel_read_chars
       { (mce_resume_io_monitor demoMonSusp demoFileChan).2 with
           contents := (mce_resume_io_monitor demoMonSusp demoFileChan).2.contents
             ++ [7, 8] }
       32).2
      = [7, 8].take 32 := by
  refine ⟨by decide, ?_, ?_⟩
  · exact ((seek_to_end_no_stale_replay.1 demoFileChan (by decide)).1)
  · exact (seek_to_end_no_stale_replay.2 demoMonSusp demoFileChan [7, 8] 32
      rfl rfl rfl (by decide))

/-- C7: registration is atomic on open failure.  When the channel cannot be
created (from the descriptor when fd is supplied, from the path otherwise,
with the struct allocation itself succeeding), the base constructor returns
a NULL handle, leaves the `file_monitors` registry exactly as it was, and
emits exactly one diagnostic iff the error policy is not IGNORE. -/
theorem register_open_failure_atomic :
    ∀ (env : OpenEnv) (monitors : List IomonStruct) (fd : Int) (f : String)
      (policy : ErrorPolicy) (d : Nat),
      env.alloc_ok = true →
      (fd ≠ -1 → env.unix_new_ok = false) →
      (fd = -1 → env.new_file_ok = false) →
      (mce_register_io_monitor env monitors fd (some f) policy true d).iomon
        = none ∧
      (mce_register_io_monitor env monitors fd (some f) policy true d).file_monitors
        = monitors ∧
      (mce_register_io_monitor env monitors fd (some f) policy true d).logs.length
        = (if policy ≠ ErrorPolicy.IGNORE then 1 else 0) := by
  intro env monitors fd f policy d halloc hufd hffd
  by_cases hfd : fd = -1
  · have hnf := hffd hfd
    by_cases hpol : policy = ErrorPolicy.IGNORE <;>
      simp [mce_register_io_monitor, hfd, halloc, hnf, hpol]
  · have hun := hufd hfd
    by_cases hpol : policy = ErrorPolicy.IGNORE <;>
      simp [mce_register_io_monitor, hfd, halloc, hun, hpol]

theorem register_open_failure_atomic_witness :
    (mce_register_io_monitor demoEnvOpenFail [] (-1) (some "/sys/demo")
        ErrorPolicy.WARN true 0).iomon = none ∧
    (mce_register_io_monitor demoEnvOpenFail [] (-1) (some "/sys/demo")
        ErrorPolicy.WARN true 0).file_monitors = [] ∧
    (mce_register_io_monitor demoEnvOpenFail [] (-1) (some "/sys/demo")
        ErrorPolicy.WARN true 0).logs.length
      = (if ErrorPolicy.WARN ≠ ErrorPolicy.IGNORE then 1 else 0) :=
  register_open_failure_atomic demoEnvOpenFail [] (-1) "/sys/demo"
    ErrorPolicy.WARN 0 rfl (fun h => absurd rfl h) (fun _ => rfl)

/-- C8 counterexample: registering a string monitor on a non-seekable channel
with rewind requested emits exactly one diagnostic, but its severity is
LL_ERR (the C code logs with `mce_log(LL_ERR, ...)`), not the warning
severity LL_WARN the claim names.  The rewind flag is still forced to false,
so only the severity part of the claim fails. -/
theorem rewind_diag_severity_cex :
    (mce_register_io_monitor_string demoEnvOk demoPipeChan [] (-1)
        (some "/dev/pipe0") ErrorPolicy.WARN true true 3).1.logs.map LogMsg.level
      = [Loglevel.LL_ERR] ∧
    Loglevel.LL_ERR ≠ Loglevel.LL_WARN := by
  constructor
  · rfl
  · decide

/-- C8 amended: for every monitor produced by either constructor the
invariant holds that an effective rewind flag of true implies the channel is
seekable; when the caller requests rewind on a non-seekable channel the
effective rewind flag is forced to false and exactly one diagnostic is
emitted, at error severity LL_ERR (not warning severity). -/
theorem rewind_forced_false_on_nonseekable :
    (∀ (env : OpenEnv) (ch : IoChannel) (monitors : List IomonStruct) (fd : Int)
       (f : String) (policy : ErrorPolicy) (rwp : Bool) (d : Nat) (m : IomonStruct),
       (mce_register_io_monitor_string env ch monitors fd (some f) policy rwp
           true d).1.iomon = some m →
       (m.rewind = true → ch.seekable = true) ∧
       (ch.seekable = false → rwp = true →
          m.rewind = false ∧
          (mce_register_io_monitor_string env ch monitors fd (some f) policy rwp
              true d).1.logs.map LogMsg.level = [Loglevel.LL_ERR])) ∧
    (∀ (env : OpenEnv) (ch : IoChannel) (monitors : List IomonStruct) (fd : Int)
       (f : String) (policy : ErrorPolicy) (rwp : Bool) (cs : Nat) (d : Nat)
       (m : IomonStruct),
       (mce_register_io_monitor_chunk env ch monitors fd (some f) policy rwp
           true cs d).1.iomon = some m →
       (m.rewind = true → ch.seekable = true) ∧
       (ch.seekable = false → rwp = true →
          m.rewind = false ∧
          (mce_register_io_monitor_chunk env ch monitors fd (some f) policy rwp
              true cs d).1.logs.map LogMsg.level = [Loglevel.LL_ERR])) := by
  constructor
  · intro env ch monitors fd f policy rwp d m hm
    cases hb : (mce_register_io_monitor env monitors fd (some f) policy true d).iomon with
    | none =>
      rw [mce_register_io_monitor_string, hb] at hm
      simp [hb] at hm
    | some iomon0 =>
      have hlogs := register_base_some_logs env monitors fd (some f) policy true d
        iomon0 hb
      rw [mce_register_io_monitor_string, hb] at hm ⊢
      simp only [] at hm ⊢
      have hm2 := Option.some.inj hm
      have hmr : m.rewind = (iomon_rewind_setup ch.seekable rwp iomon0.file).1 := by
        rw [← hm2, resume_preserves_rewind]
      constructor
      · intro hrw
        by_cases hs : ch.seekable
        · exact hs
        · rw [hmr] at hrw
          by_cases hrp : rwp <;> simp [iomon_rewind_setup, hs, hrp] at hrw
      · intro hs hrp
        refine ⟨?_, ?_⟩
        · rw [hmr]
          simp [iomon_rewind_setup, hs, hrp]
        · simp [hlogs, iomon_rewind_setup, hs, hrp]
  · intro env ch monitors fd f policy rwp cs d m hm
    cases hb : (mce_register_io_monitor env monitors fd (some f) policy true d).iomon with
    | none =>
      rw [mce_register_io_monitor_chunk, hb] at hm
      simp [hb] at hm
    | some iomon0 =>
      have hlogs := register_base_some_logs env monitors fd (some f) policy true d
        iomon0 hb
      rw [mce_register_io_monitor_chunk, hb] at hm ⊢
      simp only [] at hm ⊢
      have hm2 := Option.some.inj hm
      have hmr : m.rewind = (iomon_rewind_setup ch.seekable rwp iomon0.file).1 := by
        rw [← hm2, resume_preserves_rewind]
      constructor
      · intro hrw
        by_cases hs : ch.seekable
        · exact hs
        · rw [hmr] at hrw
          by_cases hrp : rwp <;> simp [iomon_rewind_setup, hs, hrp] at hrw
      · intro hs hrp
        refine ⟨?_, ?_⟩
        · rw [hmr]
          simp [iomon_rewind_setup, hs, hrp]
        · simp [hlogs, iomon_rewind_setup, hs, hrp]

theorem rewind_forced_false_on_nonseekable_witness :
    demoPipeStrMon.rewind = false ∧
    (mce_register_io_monitor_string demoEnvOk demoPipeChan [] (-1)
        (some "/dev/pipe0") ErrorPolicy.WARN true true 3).1.logs.map LogMsg.level
      = [Loglevel.LL_ERR] :=
  (rewind_forced_false_on_nonseekable.1 demoEnvOk demoPipeChan [] (-1)
      "/dev/pipe0" ErrorPolicy.WARN true 3 demoPipeStrMon (by decide)).2 rfl rfl

/-- C9: for a line (string) monitor, a hard read error (the GError
out-parameter of `g_io_channel_read_line` set) makes the handler invoke the
removal callback exactly once with (context, target, handle, error detail),
invoke no data callback, and return FALSE so that the GSource data watch is
removed and never fires again for this monitor (the caller is expected to
unregister from inside that callback; the handler has already disarmed
itself, and it performs no process-level action). -/
theorem string_hard_error_removal :
    ∀ (iomon : IomonStruct) (read : ReadLineResult) (e : GErr),
      read.error = some e →
      (io_string_cb (some iomon) read).removal_calls
        = [⟨iomon.remdev_data, iomon.file,
            { iomon with latest_io_condition := 0 }, e⟩] ∧
      (io_string_cb (some iomon) read).data_calls = [] ∧
      (io_string_cb (some iomon) read).keep_source = false ∧
      (io_string_cb (some iomon) read).final_actions = [] := by
  intro iomon read e herr
  simp [io_string_cb, herr]

theorem string_hard_error_removal_witness :
    (io_string_cb (some demoMonWarn) ⟨none, 0, some demoErrOther⟩).removal_calls
      = [⟨demoMonWarn.remdev_data, demoMonWarn.file,
          { demoMonWarn with latest_io_condition := 0 }, demoErrOther⟩] ∧
    (io_string_cb (some demoMonWarn) ⟨none, 0, some demoErrOther⟩).data_calls = [] ∧
    (io_string_cb (some demoMonWarn) ⟨none, 0, some demoErrOther⟩).keep_source = false ∧
    (io_string_cb (some demoMonWarn) ⟨none, 0, some demoErrOther⟩).final_actions = [] :=
  string_hard_error_removal demoMonWarn ⟨none, 0, some demoErrOther⟩ demoErrOther rfl

/-- C10: neither read handler can ever terminate the process: for every
input (including a NULL monitor and every error policy) the process-level
action list of `io_string_cb` and `io_chunk_cb` is empty, because the local
status flag goes FALSE only in the NULL-monitor branch while the `EXIT:`
epilogue also requires a non-NULL monitor, and the hard-error paths return
before reaching the epilogue.  By contrast the condition dispatcher
`io_error_cb` does produce process-termination actions for some input, so
termination can originate only there. -/
theorem read_handlers_never_exit :
    (∀ (data : Option IomonStruct) (read : ReadLineResult),
       (io_string_cb data read).final_actions = []) ∧
    (∀ (data : Option IomonStruct) (errnoIn : Nat) (reads : List ChunkRead),
       (io_chunk_cb data errnoIn reads).final_actions = []) ∧
    (∃ (iomon : IomonStruct) (condition : Nat),
       (io_error_cb (some iomon) condition).final_actions ≠ []) := by
  refine ⟨?_, ?_, ⟨demoMonExit, 1, ?_⟩⟩
  · intro data read
    cases data with
    | none => simp [io_string_cb, io_cb_exit_actions]
    | some m =>
      cases herr : read.error with
      | some e => simp [io_string_cb, herr]
      | none =>
        by_cases hb : (read.bytes_read = 0 ∨ read.str = none ∨
            (read.str.getD "").length = 0)
        · simp [io_string_cb, herr, hb, io_cb_exit_actions]
        · simp [io_string_cb, herr, hb, io_cb_exit_actions]
  · intro data errnoIn reads
    cases data with
    | none => simp [io_chunk_cb, io_cb_exit_actions]
    | some m =>
      cases hloop : chunk_read_loop reads with
      | none => simp [io_chunk_cb, hloop, io_cb_exit_actions]
      | some r =>
        cases herr : r.error with
        | some e =>
          by_cases hc : (e.code = GIOChannelErrorCode.FAILED ∧ errnoIn = ENODEV)
          · simp [io_chunk_cb, hloop, herr, hc]
          · simp only [io_chunk_cb, hloop, herr]
            simp [hc, io_cb_exit_actions]
        | none =>
          by_cases hb : r.bytes_read = 0
          · simp [io_chunk_cb, hloop, herr, hb, io_cb_exit_actions]
          · simp [io_chunk_cb, hloop, herr, hb, io_cb_exit_actions]
  · decide
